import Mathlib

/-!
Shallow embedding of the AthletyQ signup / email-confirmation flow.

Sources embedded:
- `src/services/auth/auth.service.ts` : `signUp`, `createProfile`
- `src/app/api/auth/confirm/route.ts` : `GET` (confirm), `POST` (create-profile),
  `POST` (signup)
- `src/unnamed/part_000` : `POST` (signup with profile)
- `src/unnamed/part_001` : `ConfirmPage.handleConfirmation` (client orchestrator)

External effects (the Supabase provider, the `profiles` store, `fetch`) are
modelled as explicit inputs holding the outcome each call would return; every
handler additionally reports which external calls it actually made, so that
"no provider call is made" claims are statable.
-/

namespace AthletyQ

/-- JavaScript truthiness of an optional string value: `undefined`/`null` and
the empty string are falsy, every other string is truthy. -/
def jsTruthy : Option String → Bool
  | none => false
  | some s => !s.isEmpty

/-- JavaScript `v || d` for an optional string `v` (falsy values replaced by `d`). -/
def jsOr (v : Option String) (d : String) : String :=
  match v with
  | some s => if s.isEmpty then d else s
  | none => d

/-- JavaScript `s || d` for a string `s` (empty string replaced by `d`). -/
def jsOrStr (s d : String) : String :=
  if s.isEmpty then d else s

/-- JavaScript `v || d` for an optional number `v` (`undefined` and `0` are falsy). -/
def jsOrNat (v : Option Nat) (d : Nat) : Nat :=
  match v with
  | some n => if n = 0 then d else n
  | none => d

/-- A character admitted by the bracket class of the e-mail regex
`^[^\s@]+@[^\s@]+\.[^\s@]+$`: anything that is neither whitespace nor `@`. -/
def isEmailChar (c : Char) : Bool :=
  c != '@' && !c.isWhitespace

/-- Test of the regex `^[^\s@]+@[^\s@]+\.[^\s@]+$` used by both signup handlers.
A string matches iff it splits as `a ++ "@" ++ b` where `a` is nonempty with no
whitespace or `@`, and `b` has no whitespace or `@` and contains a `.` that is
neither its first nor its last character (the chars around that dot form the
nonempty `[^\s@]+` groups; `.` itself lies in `[^\s@]`, so extra dots may occur
inside the groups). -/
def emailRegexTest (s : String) : Bool :=
  let cs := s.data
  let a := cs.takeWhile (fun c => c != '@')
  match cs.dropWhile (fun c => c != '@') with
  | '@' :: b =>
      !a.isEmpty && a.all isEmailChar && b.all isEmailChar &&
        ((b.drop 1).dropLast.contains '.')
  | _ => false

/-- Supabase user as this code observes it: the id, the account e-mail, and the
two `user_metadata` entries (`fullName`, `role`) the signup flow stores. -/
structure User where
  id : String
  email : Option String
  fullName : Option String
  role : Option String
deriving DecidableEq

/-- Supabase session; only the access token is ever read by this code. -/
structure Session where
  access_token : String
deriving DecidableEq

/-- Environment configuration read by the services and routes:
`NEXT_PUBLIC_SUPABASE_URL`, `NEXT_PUBLIC_SUPABASE_PUBLISHABLE_KEY`,
`SUPABASE_SERVICE_ROLE_KEY`. -/
structure AuthConfig where
  url : Option String
  publishableKey : Option String
  serviceRoleKey : Option String
deriving DecidableEq

/-- Embeds `isSupabaseConfigured` from `auth.service.ts`:
`Boolean(url && anonKey)` over the two public env vars. -/
def isSupabaseConfigured (cfg : AuthConfig) : Bool :=
  jsTruthy cfg.url && jsTruthy cfg.publishableKey

/-- Error payload of `AuthServiceResult` (`{message, code?, status?}`). -/
structure SvcError where
  message : String
  code : Option String := none
  status : Option Nat := none
deriving DecidableEq

/-- Embeds `AuthServiceResult<T>` from `auth.service.ts`. -/
inductive SvcResult (α : Type) where
  | ok (data : α)
  | error (e : SvcError)
deriving DecidableEq

/-- The data part of the provider's `auth.signUp` response. -/
structure ProviderSignUpData where
  user : Option User
  session : Option Session
deriving DecidableEq

/-- Outcome of the provider's `auth.signUp` call: response data plus optional
`AuthError` (modelled with the `message`/`code`/`status` fields the code reads). -/
structure ProviderSignUpResult where
  data : ProviderSignUpData
  error : Option SvcError
deriving DecidableEq

/-- Embeds `SignUpInput` from `auth.service.ts`. The full-name and role are optional
here because the minimal signup route calls the service without them. -/
structure SignUpInput where
  email : String
  password : String
  fullName : Option String := none
  role : Option String := none
  emailRedirectTo : Option String := none
deriving DecidableEq

/-- Embeds `SignUpResult` from `auth.service.ts`. -/
structure SignUpResultData where
  user : Option User
  confirmationRequired : Bool
deriving DecidableEq

/-- Result of one run of the `signUp` service: the returned value plus whether
the provider's `auth.signUp` operation was actually invoked. -/
structure SignUpCall where
  result : SvcResult SignUpResultData
  providerCalled : Bool
deriving DecidableEq

/-- Embeds `signUp` from `auth.service.ts`. `provider` holds what `supabase.auth.signUp`
would return if called. -/
def signUpService (cfg : AuthConfig) (_input : SignUpInput)
    (provider : ProviderSignUpResult) : SignUpCall :=
  if ¬ isSupabaseConfigured cfg then
    { result := .error
        { message := "Supabase is not configured. Set NEXT_PUBLIC_SUPABASE_URL and NEXT_PUBLIC_SUPABASE_PUBLISHABLE_KEY." },
      providerCalled := false }
  else
    match provider.error with
    | some e => { result := .error e, providerCalled := true }
    | none =>
      match provider.data.user with
      | none =>
        { result := .error { message := "Failed to create user account." },
          providerCalled := true }
      | some u =>
        { result := .ok { user := some u,
                          confirmationRequired := provider.data.session.isNone },
          providerCalled := true }

/-- The `userMetadata` argument of `createProfile`. -/
structure ProfileMetadata where
  fullName : Option String
  role : Option String
  email : Option String
deriving DecidableEq

/-- Outcome the `profiles` store would report for an
`insert(...).select().single()` call: the inserted row's `user_id`, or a
PostgREST error with its `code` and `message`. -/
inductive InsertResult where
  | ok (user_id : String)
  | error (code : Option String) (message : String)
deriving DecidableEq

/-- The `{ user_id }` success payload of `createProfile`. -/
structure ProfileIdData where
  user_id : String
deriving DecidableEq

/-- Result of one run of the `createProfile` service: the returned value plus
whether the store insert was actually attempted. -/
structure CreateProfileCall where
  result : SvcResult ProfileIdData
  insertCalled : Bool
deriving DecidableEq

/-- The `validRoles` list shared by service and routes. -/
def validRoles : List String :=
  ["athlete", "coach", "organization"]

/-- Embeds `createProfile` from `auth.service.ts`. `store` holds what the insert into
`profiles` would report if attempted. -/
def createProfileService (cfg : AuthConfig) (userId : String)
    (md : ProfileMetadata) (store : InsertResult) : CreateProfileCall :=
  if ¬ isSupabaseConfigured cfg then
    { result := .error
        { message := "Supabase is not configured. Set NEXT_PUBLIC_SUPABASE_URL and NEXT_PUBLIC_SUPABASE_PUBLISHABLE_KEY." },
      insertCalled := false }
  else if ¬ jsTruthy md.fullName ∨ ¬ jsTruthy md.role ∨ ¬ jsTruthy md.email then
    { result := .error
        { message := "Missing required profile data (fullName, role, or email)." },
      insertCalled := false }
  else if ¬ (md.role.getD "") ∈ validRoles then
    { result := .error { message := "Invalid role: " ++ md.role.getD "" },
      insertCalled := false }
  else
    match store with
    | .error code _msg =>
      if code = some "23505" then
        { result := .ok { user_id := userId }, insertCalled := true }
      else
        { result := .error { message := "Failed to create profile.", code := code },
          insertCalled := true }
    | .ok rowId =>
      { result := .ok { user_id := rowId }, insertCalled := true }

/-- Error payload of the HTTP response envelope
(`{message, code?, status?, details?}`). -/
structure ApiError where
  message : String
  code : Option String := none
  status : Option Nat := none
  details : Option String := none
deriving DecidableEq

/-- An HTTP response as produced by the route handlers: a JSON success envelope
with an HTTP status, a JSON error envelope with an HTTP status, or a redirect. -/
inductive ApiResponse (α : Type) where
  | ok (status : Nat) (data : α)
  | error (status : Nat) (e : ApiError)
  | redirect (target : String)
deriving DecidableEq

/-- The parsed JSON body of a signup request; absent fields are `none`. -/
structure SignupBody where
  email : Option String := none
  password : Option String := none
  fullName : Option String := none
  role : Option String := none
deriving DecidableEq

/-- Success payload of the signup routes
(`{userId, email, confirmationRequired}`, the first two via `user?.`). -/
structure SignupRespData where
  userId : Option String
  email : Option String
  confirmationRequired : Bool
deriving DecidableEq

/-- Result of one run of a signup route: the HTTP response plus whether the
provider's `auth.signUp` operation was invoked. -/
structure SignupOutcome where
  resp : ApiResponse SignupRespData
  providerCalled : Bool
deriving DecidableEq

/-- Shared success/error response mapping of both signup routes once the
`signUp` service has been called. -/
def signupRespOfCall (call : SignUpCall) : SignupOutcome :=
  match call.result with
  | .error e =>
    { resp := .error (jsOrNat e.status 500)
        { message := e.message, code := e.code, status := e.status },
      providerCalled := call.providerCalled }
  | .ok d =>
    { resp := .ok 201
        { userId := d.user.map User.id,
          email := d.user.bind User.email,
          confirmationRequired := d.confirmationRequired },
      providerCalled := call.providerCalled }

/-- Embeds the `POST` signup handler from `route.ts` (email/password-only variant).
`body = none` models `request.json()` throwing a `SyntaxError`. -/
def postSignup (cfg : AuthConfig) (body : Option SignupBody)
    (provider : ProviderSignUpResult) : SignupOutcome :=
  match body with
  | none =>
    { resp := .error 400 { message := "Invalid JSON in request body" },
      providerCalled := false }
  | some b =>
    if ¬ jsTruthy b.email ∨ ¬ jsTruthy b.password then
      { resp := .error 400 { message := "Email and password are required" },
        providerCalled := false }
    else if ¬ emailRegexTest (b.email.getD "") then
      { resp := .error 400 { message := "Invalid email format" },
        providerCalled := false }
    else if (b.password.getD "").length < 6 then
      { resp := .error 400
          { message := "Password must be at least 6 characters long" },
        providerCalled := false }
    else
      signupRespOfCall (signUpService cfg
        { email := b.email.getD "", password := b.password.getD "" } provider)

/-- Embeds the `POST` signup-with-profile handler from `src/unnamed/part_000`.
`originHeader` is the request's `origin` header, `nextUrlOrigin` the
`request.nextUrl.origin` fallback used to build `emailRedirectTo`. -/
def postSignupWithProfile (cfg : AuthConfig) (body : Option SignupBody)
    (originHeader : Option String) (nextUrlOrigin : String)
    (provider : ProviderSignUpResult) : SignupOutcome :=
  match body with
  | none =>
    { resp := .error 400 { message := "Invalid JSON in request body" },
      providerCalled := false }
  | some b =>
    if ¬ jsTruthy b.email ∨ ¬ jsTruthy b.password ∨ ¬ jsTruthy b.fullName ∨
        ¬ jsTruthy b.role then
      { resp := .error 400
          { message := "Email, password, fullName, and role are required" },
        providerCalled := false }
    else if ¬ (b.role.getD "") ∈ validRoles then
      { resp := .error 400
          { message := "Invalid role. Must be one of: " ++
              String.intercalate ", " validRoles },
        providerCalled := false }
    else if ¬ emailRegexTest (b.email.getD "") then
      { resp := .error 400 { message := "Invalid email format" },
        providerCalled := false }
    else if (b.password.getD "").length < 6 then
      { resp := .error 400
          { message := "Password must be at least 6 characters long" },
        providerCalled := false }
    else
      signupRespOfCall (signUpService cfg
        { email := b.email.getD "", password := b.password.getD "",
          fullName := b.fullName, role := b.role,
          emailRedirectTo :=
            some (jsOr originHeader nextUrlOrigin ++ "/confirm?redirect_to=/") }
        provider)

/-- The parsed JSON body of a create-profile request. -/
structure CreateProfileBody where
  userId : Option String := none
  fullName : Option String := none
  role : Option String := none
  email : Option String := none
deriving DecidableEq

/-- Outcome of `request.json()`: the parsed body, or the thrown parse error's
message. -/
inductive BodyParse (α : Type) where
  | ok (b : α)
  | failed (message : String)
deriving DecidableEq

/-- Success payload of the create-profile route (`{user_id, message?}`). -/
structure CPData where
  user_id : String
  message : Option String := none
deriving DecidableEq

/-- All inputs of one create-profile request: the `authorization` header, the
body-parse outcome, the environment configuration, what `auth.getUser(token)`
would return (`none` covers both an auth error and a missing user), whether
the existing-profile lookup finds a row, and what the insert would report. -/
structure CreateProfileEnv where
  authHeader : Option String
  body : BodyParse CreateProfileBody
  cfg : AuthConfig
  getUser : Option User
  existingProfile : Bool
  insert : InsertResult
deriving DecidableEq

/-- Result of one create-profile request: the HTTP response, whether the
provider's `auth.getUser` verification was invoked, and whether the store
insert was attempted. -/
structure CreateProfileOutcome where
  resp : ApiResponse CPData
  getUserCalled : Bool
  insertCalled : Bool
deriving DecidableEq

/-- JavaScript `s.replace(pat, "")` for a string pattern: drop the first
occurrence of `pat`, leaving the rest unchanged (no occurrence: no-op). -/
def jsReplaceOnce (pat : List Char) : List Char → List Char
  | [] => []
  | c :: cs =>
    if pat.isPrefixOf (c :: cs) then (c :: cs).drop pat.length
    else c :: jsReplaceOnce pat cs

/-- JavaScript `h.replace("Bearer ", "")` as used to extract the bearer token
from the `authorization` header. -/
def bearerToken (h : String) : String :=
  ⟨jsReplaceOnce "Bearer ".data h.data⟩

/-- Embeds the `POST /api/auth/create-profile` handler from `route.ts`. A body-parse
failure is caught by the handler's outer `catch`, which yields the generic
500 response with the thrown message as `details`. -/
def postCreateProfile (env : CreateProfileEnv) : CreateProfileOutcome :=
  let token := env.authHeader.map bearerToken
  if ¬ jsTruthy token then
    { resp := .error 401 { message := "Missing auth token" },
      getUserCalled := false, insertCalled := false }
  else
    match env.body with
    | .failed msg =>
      { resp := .error 500
          { message := "Internal server error", details := some msg },
        getUserCalled := false, insertCalled := false }
    | .ok b =>
      if ¬ jsTruthy b.userId ∨ ¬ jsTruthy b.fullName ∨ ¬ jsTruthy b.role ∨
          ¬ jsTruthy b.email then
        { resp := .error 400
            { message := "userId, fullName, role, and email are required" },
          getUserCalled := false, insertCalled := false }
      else if ¬ jsTruthy env.cfg.url ∨ ¬ jsTruthy env.cfg.serviceRoleKey then
        { resp := .error 500 { message := "Server configuration error" },
          getUserCalled := false, insertCalled := false }
      else
        match env.getUser with
        | none =>
          { resp := .error 401 { message := "Invalid authentication token" },
            getUserCalled := true, insertCalled := false }
        | some u =>
          if u.id ≠ b.userId.getD "" then
            { resp := .error 403 { message := "User ID mismatch" },
              getUserCalled := true, insertCalled := false }
          else if env.existingProfile then
            { resp := .ok 200
                { user_id := b.userId.getD "",
                  message := some "Profile already exists" },
              getUserCalled := true, insertCalled := false }
          else if ¬ (b.role.getD "") ∈ validRoles then
            { resp := .error 400
                { message := "Invalid role: " ++ b.role.getD "" },
              getUserCalled := true, insertCalled := false }
          else
            match env.insert with
            | .error code msg =>
              if code = some "23505" then
                { resp := .ok 200
                    { user_id := b.userId.getD "",
                      message := some "Profile already exists" },
                  getUserCalled := true, insertCalled := true }
              else
                { resp := .error 500
                    { message := "Failed to create profile", code := code,
                      details := some msg },
                  getUserCalled := true, insertCalled := true }
            | .ok rowId =>
              { resp := .ok 201 { user_id := rowId },
                getUserCalled := true, insertCalled := true }

/-- Outcome of the provider's `auth.verifyOtp` call as this code reads it:
`data.user` plus an optional error with `message` and `status`. -/
structure VerifyOtpResult where
  user : Option User
  error : Option SvcError
deriving DecidableEq

/-- Query parameters of `GET /api/auth/confirm`. -/
structure ConfirmQuery where
  token_hash : Option String := none
  type : Option String := none
  redirect_to : Option String := none
deriving DecidableEq

/-- Result of one `GET /api/auth/confirm` request: the HTTP response, whether
`auth.verifyOtp` was invoked, and whether the profile insert was attempted. -/
structure GetConfirmOutcome where
  resp : ApiResponse Unit
  verifyCalled : Bool
  insertCalled : Bool
deriving DecidableEq

/-- Embeds the `GET /api/auth/confirm` handler from `route.ts`. `verify` holds what
`auth.verifyOtp` would return, `existingProfile` whether the
existing-profile lookup finds a row, and `store` what the profile insert
would report; the redirect target is `redirect_to || "/"`. -/
def getConfirm (cfg : AuthConfig) (q : ConfirmQuery)
    (verify : VerifyOtpResult) (existingProfile : Bool)
    (store : InsertResult) : GetConfirmOutcome :=
  if ¬ jsTruthy q.token_hash ∨ ¬ jsTruthy q.type then
    { resp := .error 400 { message := "Missing token_hash or type parameter" },
      verifyCalled := false, insertCalled := false }
  else if ¬ jsTruthy cfg.url ∨ ¬ jsTruthy cfg.publishableKey then
    { resp := .error 500 { message := "Supabase configuration missing" },
      verifyCalled := false, insertCalled := false }
  else
    match verify.error with
    | some e =>
      { resp := .error 400
          { message := e.message, code := e.status.map toString },
        verifyCalled := true, insertCalled := false }
    | none =>
      match verify.user with
      | none =>
        { resp := .error 400 { message := "User not found after confirmation" },
          verifyCalled := true, insertCalled := false }
      | some u =>
        if existingProfile then
          { resp := .redirect (jsOr q.redirect_to "/"),
            verifyCalled := true, insertCalled := false }
        else
          { resp := .redirect (jsOr q.redirect_to "/"),
            verifyCalled := true,
            insertCalled := (createProfileService cfg u.id
              { fullName := u.fullName, role := u.role, email := u.email }
              store).insertCalled }

/-- Outcome of the client's `fetch` to `/api/auth/create-profile`: either the
call threw (network failure) with a message, or a response arrived with the
given `ok` flag. Reading the response body (`.text()` / `.json()`) is modelled
as succeeding, since this app's endpoints always respond with a JSON body. -/
inductive FetchOutcome where
  | threw (message : String)
  | resp (ok : Bool)
deriving DecidableEq

/-- Outcome of the provider's `auth.setSession` call as the orchestrator reads
it: `data.user`, `data.session`, and an optional error. -/
structure SetSessionResult where
  user : Option User
  session : Option Session
  error : Option SvcError
deriving DecidableEq

/-- All inputs of one run of the confirmation orchestrator: the URL-fragment
parameters, the query-string parameters, and the outcomes the external calls
would produce. -/
structure OrchEnv where
  frag_access_token : Option String := none
  frag_refresh_token : Option String := none
  frag_type : Option String := none
  query_token_hash : Option String := none
  query_type : Option String := none
  setSession : SetSessionResult
  verifyOtp : VerifyOtpResult
  fetch : FetchOutcome
deriving DecidableEq

/-- The orchestrator's `status` state: `"loading" | "success" | "error"`. -/
inductive OrchStatus where
  | loading
  | success
  | error
deriving DecidableEq

/-- Observable state after `handleConfirmation` finishes: the `status`, the
`errorMessage` (initially `""`), and whether the create-profile `fetch` was
issued. -/
structure OrchState where
  status : OrchStatus
  errorMessage : String
  fetchCalled : Bool
deriving DecidableEq

/-- The `catch` block of `handleConfirmation`: `setStatus("error")` and
`setErrorMessage(error.message || "Failed to confirm email")`. -/
def orchCatch (message : String) (fetchCalled : Bool) : OrchState :=
  { status := .error,
    errorMessage := jsOrStr message "Failed to confirm email",
    fetchCalled := fetchCalled }

/-- Embeds `ConfirmPage.handleConfirmation` from `src/unnamed/part_001`. The fragment
flow runs when access and refresh tokens are present and the fragment type is
exactly `"signup"`; otherwise the token-hash flow runs when both query
parameters are present; otherwise `Error("Missing confirmation tokens")` is
thrown. In both flows a non-OK fetch response is only logged and the status
still becomes `"success"`. -/
def handleConfirmation (env : OrchEnv) : OrchState :=
  if jsTruthy env.frag_access_token ∧ jsTruthy env.frag_refresh_token ∧
      env.frag_type = some "signup" then
    match env.setSession.error with
    | some e => orchCatch e.message false
    | none =>
      match env.setSession.user with
      | none => orchCatch "User not found after setting session" false
      | some _u =>
        match env.fetch with
        | .threw m => orchCatch m true
        | .resp _ok =>
          { status := .success, errorMessage := "", fetchCalled := true }
  else if jsTruthy env.query_token_hash ∧ jsTruthy env.query_type then
    match env.verifyOtp.error with
    | some e => orchCatch e.message false
    | none =>
      match env.verifyOtp.user with
      | none => orchCatch "User not found after confirmation" false
      | some _u =>
        match env.fetch with
        | .threw m => orchCatch m true
        | .resp _ok =>
          { status := .success, errorMessage := "", fetchCalled := true }
  else
    orchCatch "Missing confirmation tokens" false

/-! Concrete values shared by the witness and counterexample theorems. -/

/-- A fully-populated environment configuration. -/
def cfgOk : AuthConfig :=
  { url := some "https://proj.supabase.co",
    publishableKey := some "anon-key",
    serviceRoleKey := some "service-key" }

/-- A confirmed user with well-formed signup metadata. -/
def userJane : User :=
  { id := "user-1", email := some "jane@example.com",
    fullName := some "Jane Doe", role := some "athlete" }

/-- Orchestrator environment with neither fragment tokens nor query token hash. -/
def orchEnvNoTokens : OrchEnv :=
  { setSession := { user := none, session := none, error := none },
    verifyOtp := { user := none, error := none },
    fetch := .resp true }

/-- Orchestrator environment: fragment signup tokens, session established, but
the create-profile fetch answers with a non-OK response. -/
def orchEnvNonOkFetch : OrchEnv :=
  { frag_access_token := some "header.payload.sig",
    frag_refresh_token := some "refresh-1",
    frag_type := some "signup",
    setSession :=
      { user := some userJane,
        session := some { access_token := "header.payload.sig" },
        error := none },
    verifyOtp := { user := none, error := none },
    fetch := .resp false }

/-- Create-profile request whose verified user (`user-1`) differs from the
`userId` field of the body (`user-2`). -/
def cpEnvMismatch : CreateProfileEnv :=
  { authHeader := some "Bearer header.payload.sig",
    body := .ok
      { userId := some "user-2", fullName := some "Jane Doe",
        role := some "athlete", email := some "jane@example.com" },
    cfg := cfgOk,
    getUser := some userJane,
    existingProfile := false,
    insert := .ok "user-2" }

/-! Claim theorems. -/

/-- C7: when the URL fragment holds no access/refresh token pair with type
`"signup"` and the query string holds no token hash with a type, the
confirmation orchestrator ends in the terminal `error` state with the message
`"Missing confirmation tokens"`. -/
theorem c7_missing_tokens_error (env : OrchEnv)
    (h1 : ¬ (jsTruthy env.frag_access_token ∧ jsTruthy env.frag_refresh_token ∧
      env.frag_type = some "signup"))
    (h2 : ¬ (jsTruthy env.query_token_hash ∧ jsTruthy env.query_type)) :
    (handleConfirmation env).status = .error ∧
    (handleConfirmation env).errorMessage = "Missing confirmation tokens" := by
  unfold handleConfirmation
  rw [if_neg h1, if_neg h2]
  exact ⟨rfl, rfl⟩

/-- Witness for C7 at a concrete tokenless environment. -/
theorem c7_missing_tokens_error_witness :
    (handleConfirmation orchEnvNoTokens).status = .error ∧
    (handleConfirmation orchEnvNoTokens).errorMessage =
      "Missing confirmation tokens" :=
  c7_missing_tokens_error orchEnvNoTokens (by decide) (by decide)

/-- C6: whenever a run of the confirmation orchestrator actually issues the
profile-creation fetch (so a token source was found and session establishment
or token verification succeeded) and that fetch returns a non-OK response, the
run still ends in the `success` state, not in `error`. -/
theorem c6_non_ok_profile_response_still_success (env : OrchEnv)
    (hf : env.fetch = .resp false)
    (hc : (handleConfirmation env).fetchCalled = true) :
    (handleConfirmation env).status = .success := by
  unfold handleConfirmation at hc ⊢
  by_cases h1 : jsTruthy env.frag_access_token ∧ jsTruthy env.frag_refresh_token ∧
      env.frag_type = some "signup"
  · rw [if_pos h1] at hc ⊢
    cases he : env.setSession.error with
    | some e => rw [he] at hc; simp [orchCatch] at hc
    | none =>
      cases hu : env.setSession.user with
      | none => rw [he, hu] at hc; simp [orchCatch] at hc
      | some u => rw [hf]
  · rw [if_neg h1] at hc ⊢
    by_cases h2 : jsTruthy env.query_token_hash ∧ jsTruthy env.query_type
    · rw [if_pos h2] at hc ⊢
      cases he : env.verifyOtp.error with
      | some e => rw [he] at hc; simp [orchCatch] at hc
      | none =>
        cases hu : env.verifyOtp.user with
        | none => rw [he, hu] at hc; simp [orchCatch] at hc
        | some u => rw [hf]
    · rw [if_neg h2] at hc; simp [orchCatch] at hc

/-- Witness for C6 at a concrete fragment-flow environment whose fetch answers
non-OK. -/
theorem c6_non_ok_profile_response_still_success_witness :
    (handleConfirmation orchEnvNonOkFetch).status = .success :=
  c6_non_ok_profile_response_still_success orchEnvNonOkFetch rfl (by decide)

/-- C5: a create-profile request whose bearer token verifies to a user whose id
differs from the body's `userId` is answered with 403 `"User ID mismatch"` and
no profile row is inserted. -/
theorem c5_user_id_mismatch_403 (env : CreateProfileEnv)
    (b : CreateProfileBody) (u : User)
    (htok : jsTruthy (env.authHeader.map bearerToken))
    (hbody : env.body = .ok b)
    (hf1 : jsTruthy b.userId) (hf2 : jsTruthy b.fullName)
    (hf3 : jsTruthy b.role) (hf4 : jsTruthy b.email)
    (hurl : jsTruthy env.cfg.url) (hsk : jsTruthy env.cfg.serviceRoleKey)
    (hu : env.getUser = some u)
    (hmm : u.id ≠ b.userId.getD "") :
    (postCreateProfile env).resp = .error 403 { message := "User ID mismatch" } ∧
    (postCreateProfile env).insertCalled = false := by
  simp [postCreateProfile, hbody, hu, htok, hf1, hf2, hf3, hf4, hurl, hsk, hmm]

/-- Witness for C5 at a concrete mismatched request. -/
theorem c5_user_id_mismatch_403_witness :
    (postCreateProfile cpEnvMismatch).resp =
      .error 403 { message := "User ID mismatch" } ∧
    (postCreateProfile cpEnvMismatch).insertCalled = false :=
  c5_user_id_mismatch_403 cpEnvMismatch
    { userId := some "user-2", fullName := some "Jane Doe",
      role := some "athlete", email := some "jane@example.com" }
    userJane (by decide) rfl (by decide) (by decide) (by decide) (by decide)
    (by decide) (by decide) rfl (by decide)

/-- C10: on `GET /api/auth/confirm`, once token verification succeeds and
yields a user, the handler redirects to the `redirect_to` target (default
`"/"`) for every possible profile-creation outcome — a failed profile creation
is only logged and never surfaces in the HTTP response. -/
theorem c10_redirect_despite_profile_failure (cfg : AuthConfig)
    (q : ConfirmQuery) (verify : VerifyOtpResult) (existingProfile : Bool)
    (store : InsertResult) (u : User)
    (hth : jsTruthy q.token_hash) (hty : jsTruthy q.type)
    (hurl : jsTruthy cfg.url) (hkey : jsTruthy cfg.publishableKey)
    (herr : verify.error = none) (hu : verify.user = some u) :
    (getConfirm cfg q verify existingProfile store).resp =
      .redirect (jsOr q.redirect_to "/") := by
  unfold getConfirm
  rw [if_neg (by simp [hth, hty]), if_neg (by simp [hurl, hkey]), herr, hu]
  cases existingProfile <;> rfl

/-- Witness for C10: verification succeeds but the profile insert fails with a
non-conflict store error; the response is still the redirect. -/
theorem c10_redirect_despite_profile_failure_witness :
    (getConfirm cfgOk
      { token_hash := some "otp-hash", type := some "signup",
        redirect_to := some "/welcome" }
      { user := some userJane, error := none } false
      (.error (some "42P01") "relation \x22profiles\x22 does not exist")).resp =
      .redirect (jsOr (some "/welcome") "/") :=
  c10_redirect_despite_profile_failure cfgOk
    { token_hash := some "otp-hash", type := some "signup",
      redirect_to := some "/welcome" }
    { user := some userJane, error := none } false
    (.error (some "42P01") "relation \x22profiles\x22 does not exist")
    userJane (by decide) (by decide) (by decide) (by decide) rfl rfl

/-- C1: a store insert failing with uniqueness-conflict code `"23505"` is
mapped to `ok` with the caller's user id, both by the `createProfile` service
(given data that reaches the insert) and by the `POST create-profile` handler
(given a request that reaches the insert); no error is reported. -/
theorem c1_conflict_treated_as_success (cfg : AuthConfig) (userId : String)
    (md : ProfileMetadata) (m1 : String)
    (env : CreateProfileEnv) (b : CreateProfileBody) (u : User) (m2 : String)
    (hconf : isSupabaseConfigured cfg)
    (hmd1 : jsTruthy md.fullName) (hmd2 : jsTruthy md.role)
    (hmd3 : jsTruthy md.email) (hrole : md.role.getD "" ∈ validRoles)
    (htok : jsTruthy (env.authHeader.map bearerToken))
    (hbody : env.body = .ok b)
    (hf1 : jsTruthy b.userId) (hf2 : jsTruthy b.fullName)
    (hf3 : jsTruthy b.role) (hf4 : jsTruthy b.email)
    (hurl : jsTruthy env.cfg.url) (hsk : jsTruthy env.cfg.serviceRoleKey)
    (hu : env.getUser = some u) (hid : u.id = b.userId.getD "")
    (hex : env.existingProfile = false)
    (hrole2 : b.role.getD "" ∈ validRoles)
    (hins : env.insert = .error (some "23505") m2) :
    (createProfileService cfg userId md (.error (some "23505") m1)).result =
      .ok { user_id := userId } ∧
    (postCreateProfile env).resp =
      .ok 200 { user_id := b.userId.getD "",
                message := some "Profile already exists" } := by
  constructor
  · unfold createProfileService
    rw [if_neg (by simp [hconf]), if_neg (by simp [hmd1, hmd2, hmd3]),
      if_neg (by simp [hrole])]
    rfl
  · simp [postCreateProfile, hbody, hu, htok, hf1, hf2, hf3, hf4, hurl, hsk,
      hid, hex, hrole2, hins]

/-- Witness for C1: both the service and the handler at a concrete conflicting
insert return `ok` with the caller's user id. -/
theorem c1_conflict_treated_as_success_witness :
    (createProfileService cfgOk "user-1"
      { fullName := some "Jane Doe", role := some "athlete",
        email := some "jane@example.com" }
      (.error (some "23505") "duplicate key value violates unique constraint")).result =
      .ok { user_id := "user-1" } ∧
    (postCreateProfile
      { authHeader := some "Bearer header.payload.sig",
        body := .ok
          { userId := some "user-1", fullName := some "Jane Doe",
            role := some "athlete", email := some "jane@example.com" },
        cfg := cfgOk, getUser := some userJane, existingProfile := false,
        insert := .error (some "23505")
          "duplicate key value violates unique constraint" }).resp =
      .ok 200 { user_id := (some "user-1").getD "",
                message := some "Profile already exists" } :=
  c1_conflict_treated_as_success cfgOk "user-1"
    { fullName := some "Jane Doe", role := some "athlete",
      email := some "jane@example.com" }
    "duplicate key value violates unique constraint"
    { authHeader := some "Bearer header.payload.sig",
      body := .ok
        { userId := some "user-1", fullName := some "Jane Doe",
          role := some "athlete", email := some "jane@example.com" },
      cfg := cfgOk, getUser := some userJane, existingProfile := false,
      insert := .error (some "23505")
        "duplicate key value violates unique constraint" }
    { userId := some "user-1", fullName := some "Jane Doe",
      role := some "athlete", email := some "jane@example.com" }
    userJane "duplicate key value violates unique constraint"
    (by decide) (by decide) (by decide) (by decide) (by decide) (by decide)
    rfl (by decide) (by decide) (by decide) (by decide) (by decide) (by decide)
    rfl (by decide) rfl (by decide) rfl

/-- C3: for a valid signup payload that the provider accepts with a user, the
signup handler answers 201 with a created-account payload whose
`confirmationRequired` is `true` iff the provider returned no session. -/
theorem c3_confirmation_required_iff_no_session (cfg : AuthConfig)
    (b : SignupBody) (provider : ProviderSignUpResult) (u : User)
    (hconf : isSupabaseConfigured cfg)
    (he : jsTruthy b.email) (hp : jsTruthy b.password)
    (hre : emailRegexTest (b.email.getD ""))
    (hlen : ¬ (b.password.getD "").length < 6)
    (herr : provider.error = none) (hu : provider.data.user = some u) :
    ∃ d, (postSignup cfg (some b) provider).resp = .ok 201 d ∧
      (d.confirmationRequired = true ↔ provider.data.session = none) := by
  refine ⟨⟨some u.id, u.email, provider.data.session.isNone⟩, ?_, ?_⟩
  · simp only [postSignup]
    rw [if_neg (by simp [he, hp]), if_neg (by simp [hre]), if_neg hlen]
    unfold signUpService
    rw [if_neg (by simp [hconf]), herr, hu]
    rfl
  · simp [Option.isNone_iff_eq_none]

/-- Witness for C3 at a concrete accepted signup without a session. -/
theorem c3_confirmation_required_iff_no_session_witness :
    ∃ d, (postSignup cfgOk
      (some { email := some "jane@example.com", password := some "hunter22" })
      { data := { user := some userJane, session := none },
        error := none }).resp = .ok 201 d ∧
      (d.confirmationRequired = true ↔
        ({ data := { user := some userJane, session := none },
           error := none } : ProviderSignUpResult).data.session = none) :=
  c3_confirmation_required_iff_no_session cfgOk
    { email := some "jane@example.com", password := some "hunter22" }
    { data := { user := some userJane, session := none }, error := none }
    userJane (by decide) (by decide) (by decide) (by decide) (by decide)
    rfl rfl

/-- A signup body matching the spec scenario `{email:"a@b.com", password:"short"}`
(profile fields present so the same body exercises both signup variants). -/
def shortPwBody : SignupBody :=
  { email := some "a@b.com", password := some "short",
    fullName := some "Jane Doe", role := some "athlete" }

/-- A provider outcome that is never reached in the validation-failure runs. -/
def providerUnused : ProviderSignUpResult :=
  { data := { user := none, session := none }, error := none }

/-- C2: a signup request that is missing email or password, or whose email
fails the regex, or whose password is shorter than 6 characters, is answered
with a 400 validation error by both signup handlers, and neither invokes the
provider's `signUp` operation. -/
theorem c2_invalid_signup_rejected_no_provider_call (cfg : AuthConfig)
    (b : SignupBody) (provider : ProviderSignUpResult)
    (originHeader : Option String) (nextUrlOrigin : String)
    (h : ¬ jsTruthy b.email ∨ ¬ jsTruthy b.password ∨
      ¬ emailRegexTest (b.email.getD "") ∨ (b.password.getD "").length < 6) :
    ((∃ e, (postSignup cfg (some b) provider).resp = .error 400 e) ∧
      (postSignup cfg (some b) provider).providerCalled = false) ∧
    ((∃ e, (postSignupWithProfile cfg (some b) originHeader nextUrlOrigin
        provider).resp = .error 400 e) ∧
      (postSignupWithProfile cfg (some b) originHeader nextUrlOrigin
        provider).providerCalled = false) := by
  constructor
  · simp only [postSignup]
    by_cases hA : ¬ jsTruthy b.email ∨ ¬ jsTruthy b.password
    · rw [if_pos hA]; exact ⟨⟨_, rfl⟩, rfl⟩
    · by_cases hB : ¬ emailRegexTest (b.email.getD "")
      · rw [if_neg hA, if_pos hB]; exact ⟨⟨_, rfl⟩, rfl⟩
      · by_cases hC : (b.password.getD "").length < 6
        · rw [if_neg hA, if_neg hB, if_pos hC]; exact ⟨⟨_, rfl⟩, rfl⟩
        · exact absurd h (by tauto)
  · simp only [postSignupWithProfile]
    by_cases hA : ¬ jsTruthy b.email ∨ ¬ jsTruthy b.password ∨
        ¬ jsTruthy b.fullName ∨ ¬ jsTruthy b.role
    · rw [if_pos hA]; exact ⟨⟨_, rfl⟩, rfl⟩
    · by_cases hR : ¬ (b.role.getD "") ∈ validRoles
      · rw [if_neg hA, if_pos hR]; exact ⟨⟨_, rfl⟩, rfl⟩
      · by_cases hB : ¬ emailRegexTest (b.email.getD "")
        · rw [if_neg hA, if_neg hR, if_pos hB]; exact ⟨⟨_, rfl⟩, rfl⟩
        · by_cases hC : (b.password.getD "").length < 6
          · rw [if_neg hA, if_neg hR, if_neg hB, if_pos hC]
            exact ⟨⟨_, rfl⟩, rfl⟩
          · exact absurd h (by tauto)

/-- Witness for C2 at the spec's short-password scenario. -/
theorem c2_invalid_signup_rejected_no_provider_call_witness :
    ((∃ e, (postSignup cfgOk (some shortPwBody) providerUnused).resp =
        .error 400 e) ∧
      (postSignup cfgOk (some shortPwBody) providerUnused).providerCalled =
        false) ∧
    ((∃ e, (postSignupWithProfile cfgOk (some shortPwBody) none
        "https://app.example.com" providerUnused).resp = .error 400 e) ∧
      (postSignupWithProfile cfgOk (some shortPwBody) none
        "https://app.example.com" providerUnused).providerCalled = false) :=
  c2_invalid_signup_rejected_no_provider_call cfgOk shortPwBody providerUnused
    none "https://app.example.com" (by decide)

/-- C9: a request that passes its input checks but finds the required provider
URL/key configuration absent fails with a 500 server configuration error and
makes no provider or store call — on `GET confirm`, on `POST create-profile`,
and on `POST signup` (where the service's not-configured error carries no
status, so the handler maps it to 500). -/
theorem c9_missing_config_server_error (cfg : AuthConfig) (q : ConfirmQuery)
    (verify : VerifyOtpResult) (existingProfile : Bool) (store : InsertResult)
    (env : CreateProfileEnv) (b : CreateProfileBody)
    (sb : SignupBody) (provider : ProviderSignUpResult)
    (hth : jsTruthy q.token_hash) (hty : jsTruthy q.type)
    (hcfg1 : ¬ jsTruthy cfg.url ∨ ¬ jsTruthy cfg.publishableKey)
    (htok : jsTruthy (env.authHeader.map bearerToken))
    (hbody : env.body = .ok b)
    (hf1 : jsTruthy b.userId) (hf2 : jsTruthy b.fullName)
    (hf3 : jsTruthy b.role) (hf4 : jsTruthy b.email)
    (hcfg2 : ¬ jsTruthy env.cfg.url ∨ ¬ jsTruthy env.cfg.serviceRoleKey)
    (he : jsTruthy sb.email) (hp : jsTruthy sb.password)
    (hre : emailRegexTest (sb.email.getD ""))
    (hlen : ¬ (sb.password.getD "").length < 6)
    (hnc : isSupabaseConfigured cfg = false) :
    ((getConfirm cfg q verify existingProfile store).resp =
        .error 500 { message := "Supabase configuration missing" } ∧
      (getConfirm cfg q verify existingProfile store).verifyCalled = false ∧
      (getConfirm cfg q verify existingProfile store).insertCalled = false) ∧
    ((postCreateProfile env).resp =
        .error 500 { message := "Server configuration error" } ∧
      (postCreateProfile env).getUserCalled = false ∧
      (postCreateProfile env).insertCalled = false) ∧
    ((postSignup cfg (some sb) provider).resp = .error 500
        { message := "Supabase is not configured. Set NEXT_PUBLIC_SUPABASE_URL and NEXT_PUBLIC_SUPABASE_PUBLISHABLE_KEY." } ∧
      (postSignup cfg (some sb) provider).providerCalled = false) := by
  refine ⟨?_, ?_, ?_⟩
  · unfold getConfirm
    rw [if_neg (by simp [hth, hty]), if_pos hcfg1]
    exact ⟨rfl, rfl, rfl⟩
  · rcases hcfg2 with hc | hc <;>
      simp [postCreateProfile, hbody, htok, hf1, hf2, hf3, hf4, hc]
  · simp only [postSignup]
    rw [if_neg (by simp [he, hp]), if_neg (by simp [hre]), if_neg hlen]
    unfold signUpService
    rw [if_pos (by simp [hnc])]
    exact ⟨rfl, rfl⟩

/-- Witness for C9 at a concrete unconfigured environment. -/
theorem c9_missing_config_server_error_witness :
    ((getConfirm { url := none, publishableKey := none, serviceRoleKey := none }
        { token_hash := some "otp-hash", type := some "signup" }
        { user := none, error := none } false (.ok "user-1")).resp =
        .error 500 { message := "Supabase configuration missing" } ∧
      (getConfirm { url := none, publishableKey := none, serviceRoleKey := none }
        { token_hash := some "otp-hash", type := some "signup" }
        { user := none, error := none } false (.ok "user-1")).verifyCalled = false ∧
      (getConfirm { url := none, publishableKey := none, serviceRoleKey := none }
        { token_hash := some "otp-hash", type := some "signup" }
        { user := none, error := none } false (.ok "user-1")).insertCalled = false) ∧
    ((postCreateProfile
        { authHeader := some "Bearer header.payload.sig",
          body := .ok
            { userId := some "user-1", fullName := some "Jane Doe",
              role := some "athlete", email := some "jane@example.com" },
          cfg := { url := none, publishableKey := none, serviceRoleKey := none },
          getUser := none, existingProfile := false, insert := .ok "user-1" }).resp =
        .error 500 { message := "Server configuration error" } ∧
      (postCreateProfile
        { authHeader := some "Bearer header.payload.sig",
          body := .ok
            { userId := some "user-1", fullName := some "Jane Doe",
              role := some "athlete", email := some "jane@example.com" },
          cfg := { url := none, publishableKey := none, serviceRoleKey := none },
          getUser := none, existingProfile := false, insert := .ok "user-1" }).getUserCalled = false ∧
      (postCreateProfile
        { authHeader := some "Bearer header.payload.sig",
          body := .ok
            { userId := some "user-1", fullName := some "Jane Doe",
              role := some "athlete", email := some "jane@example.com" },
          cfg := { url := none, publishableKey := none, serviceRoleKey := none },
          getUser := none, existingProfile := false, insert := .ok "user-1" }).insertCalled = false) ∧
    ((postSignup { url := none, publishableKey := none, serviceRoleKey := none }
        (some { email := some "jane@example.com", password := some "hunter22" })
        providerUnused).resp = .error 500
        { message := "Supabase is not configured. Set NEXT_PUBLIC_SUPABASE_URL and NEXT_PUBLIC_SUPABASE_PUBLISHABLE_KEY." } ∧
      (postSignup { url := none, publishableKey := none, serviceRoleKey := none }
        (some { email := some "jane@example.com", password := some "hunter22" })
        providerUnused).providerCalled = false) :=
  c9_missing_config_server_error
    { url := none, publishableKey := none, serviceRoleKey := none }
    { token_hash := some "otp-hash", type := some "signup" }
    { user := none, error := none } false (.ok "user-1")
    { authHeader := some "Bearer header.payload.sig",
      body := .ok
        { userId := some "user-1", fullName := some "Jane Doe",
          role := some "athlete", email := some "jane@example.com" },
      cfg := { url := none, publishableKey := none, serviceRoleKey := none },
      getUser := none, existingProfile := false, insert := .ok "user-1" }
    { userId := some "user-1", fullName := some "Jane Doe",
      role := some "athlete", email := some "jane@example.com" }
    { email := some "jane@example.com", password := some "hunter22" }
    providerUnused
    (by decide) (by decide) (by decide) (by decide) rfl (by decide) (by decide)
    (by decide) (by decide) (by decide) (by decide) (by decide) (by decide)
    (by decide) (by decide)

/-- A create-profile request with an invalid role whose user already has a
profile row: everything else well-formed, bearer subject matches `userId`. -/
def cpEnvRoleExisting : CreateProfileEnv :=
  { authHeader := some "Bearer header.payload.sig",
    body := .ok
      { userId := some "user-1", fullName := some "Jane Doe",
        role := some "superadmin", email := some "jane@example.com" },
    cfg := cfgOk,
    getUser := some userJane,
    existingProfile := true,
    insert := .ok "user-1" }

/-- C4, counterexample: `"superadmin"` is outside the role enum, all other
fields of `cpEnvRoleExisting` are well-formed and the bearer subject matches,
yet because a profile row already exists the `POST create-profile` handler
answers `ok` 200 ("Profile already exists") instead of a validation error —
the existing-profile check runs before role validation. -/
theorem c4_role_validation_counterexample :
    ("superadmin" ∈ validRoles → False) ∧
    (postCreateProfile cpEnvRoleExisting).resp =
      .ok 200 { user_id := "user-1", message := some "Profile already exists" } :=
  ⟨by decide, by decide⟩

/-- C4, amended: a profile-creation call whose role is outside
{athlete, coach, organization} returns a validation error regardless of the
other fields — unconditionally so in the `createProfile` service, and in the
`POST create-profile` handler whenever no profile row exists yet for the user
id; when a row already exists, that handler instead short-circuits to success
("Profile already exists") without validating the role, and in all three cases
no insert is attempted. -/
theorem c4_role_validation_amended (cfg : AuthConfig) (userId : String)
    (md : ProfileMetadata) (store : InsertResult) (r : String)
    (env1 env2 : CreateProfileEnv) (b1 b2 : CreateProfileBody) (u1 u2 : User)
    (hconf : isSupabaseConfigured cfg)
    (hmd1 : jsTruthy md.fullName) (hmd2 : jsTruthy md.role)
    (hmd3 : jsTruthy md.email)
    (hr : md.role = some r) (hrbad : r ∉ validRoles)
    (htok1 : jsTruthy (env1.authHeader.map bearerToken))
    (hbody1 : env1.body = .ok b1)
    (hb11 : jsTruthy b1.userId) (hb12 : jsTruthy b1.fullName)
    (hb13 : jsTruthy b1.role) (hb14 : jsTruthy b1.email)
    (hurl1 : jsTruthy env1.cfg.url) (hsk1 : jsTruthy env1.cfg.serviceRoleKey)
    (hu1 : env1.getUser = some u1) (hid1 : u1.id = b1.userId.getD "")
    (hex1 : env1.existingProfile = false) (hr1 : b1.role = some r)
    (htok2 : jsTruthy (env2.authHeader.map bearerToken))
    (hbody2 : env2.body = .ok b2)
    (hb21 : jsTruthy b2.userId) (hb22 : jsTruthy b2.fullName)
    (hb23 : jsTruthy b2.role) (hb24 : jsTruthy b2.email)
    (hurl2 : jsTruthy env2.cfg.url) (hsk2 : jsTruthy env2.cfg.serviceRoleKey)
    (hu2 : env2.getUser = some u2) (hid2 : u2.id = b2.userId.getD "")
    (hex2 : env2.existingProfile = true) (hr2 : b2.role = some r) :
    ((createProfileService cfg userId md store).result =
        .error { message := "Invalid role: " ++ r } ∧
      (createProfileService cfg userId md store).insertCalled = false) ∧
    ((postCreateProfile env1).resp =
        .error 400 { message := "Invalid role: " ++ r } ∧
      (postCreateProfile env1).insertCalled = false) ∧
    ((postCreateProfile env2).resp =
        .ok 200 { user_id := b2.userId.getD "",
                  message := some "Profile already exists" } ∧
      (postCreateProfile env2).insertCalled = false) := by
  have hrt : jsTruthy (some r) = true := hr ▸ hmd2
  refine ⟨?_, ?_, ?_⟩
  · simp [createProfileService, hconf, hmd1, hmd2, hmd3, hr, hrt, hrbad]
  · simp [postCreateProfile, hbody1, htok1, hb11, hb12, hb13, hb14, hurl1,
      hsk1, hu1, hid1, hex1, hr1, hrt, hrbad]
  · simp [postCreateProfile, hbody2, htok2, hb21, hb22, hb23, hb24, hurl2,
      hsk2, hu2, hid2, hex2]

/-- Witness for the amended C4 at concrete invalid-role requests. -/
theorem c4_role_validation_amended_witness :
    ((createProfileService cfgOk "user-1"
        { fullName := some "Jane Doe", role := some "superadmin",
          email := some "jane@example.com" } (.ok "user-1")).result =
        .error { message := "Invalid role: " ++ "superadmin" } ∧
      (createProfileService cfgOk "user-1"
        { fullName := some "Jane Doe", role := some "superadmin",
          email := some "jane@example.com" } (.ok "user-1")).insertCalled = false) ∧
    ((postCreateProfile
        { authHeader := some "Bearer header.payload.sig",
          body := .ok
            { userId := some "user-1", fullName := some "Jane Doe",
              role := some "superadmin", email := some "jane@example.com" },
          cfg := cfgOk, getUser := some userJane, existingProfile := false,
          insert := .ok "user-1" }).resp =
        .error 400 { message := "Invalid role: " ++ "superadmin" } ∧
      (postCreateProfile
        { authHeader := some "Bearer header.payload.sig",
          body := .ok
            { userId := some "user-1", fullName := some "Jane Doe",
              role := some "superadmin", email := some "jane@example.com" },
          cfg := cfgOk, getUser := some userJane, existingProfile := false,
          insert := .ok "user-1" }).insertCalled = false) ∧
    ((postCreateProfile cpEnvRoleExisting).resp =
        .ok 200 { user_id := (some "user-1").getD "",
                  message := some "Profile already exists" } ∧
      (postCreateProfile cpEnvRoleExisting).insertCalled = false) :=
  c4_role_validation_amended cfgOk "user-1"
    { fullName := some "Jane Doe", role := some "superadmin",
      email := some "jane@example.com" }
    (.ok "user-1") "superadmin"
    { authHeader := some "Bearer header.payload.sig",
      body := .ok
        { userId := some "user-1", fullName := some "Jane Doe",
          role := some "superadmin", email := some "jane@example.com" },
      cfg := cfgOk, getUser := some userJane, existingProfile := false,
      insert := .ok "user-1" }
    cpEnvRoleExisting
    { userId := some "user-1", fullName := some "Jane Doe",
      role := some "superadmin", email := some "jane@example.com" }
    { userId := some "user-1", fullName := some "Jane Doe",
      role := some "superadmin", email := some "jane@example.com" }
    userJane userJane
    (by decide) (by decide) (by decide) (by decide) rfl (by decide)
    (by decide) rfl (by decide) (by decide) (by decide) (by decide)
    (by decide) (by decide) rfl (by decide) (by decide) rfl
    (by decide) rfl (by decide) (by decide) (by decide) (by decide)
    (by decide) (by decide) rfl (by decide) (by decide) rfl

/-- A create-profile request carrying a bearer token whose body cannot be
parsed as JSON. -/
def cpEnvBadBody : CreateProfileEnv :=
  { authHeader := some "Bearer header.payload.sig",
    body := .failed "Unexpected token < in JSON at position 0",
    cfg := cfgOk, getUser := none, existingProfile := false,
    insert := .ok "user-1" }

/-- C8, counterexample: an unparseable body sent to `POST create-profile` is
answered with the generic 500 "Internal server error" (the parse failure falls
through to the handler's outer catch), not with a 400 invalid-body error. -/
theorem c8_invalid_body_counterexample :
    (postCreateProfile cpEnvBadBody).resp =
      .error 500 { message := "Internal server error", details := some "Unexpected token < in JSON at position 0" } := by
  decide

/-- C8, amended: both signup handlers report an unparseable body as a 400
"Invalid JSON in request body" error distinct from field-validation errors and
make no provider call, but the `POST create-profile` handler reports an
unparseable body (once a bearer token is present) as a generic 500
"Internal server error" carrying the parse failure as details, with no
provider or store call. -/
theorem c8_invalid_body_amended (cfg : AuthConfig)
    (provider : ProviderSignUpResult)
    (originHeader : Option String) (nextUrlOrigin : String)
    (env : CreateProfileEnv) (msg : String)
    (htok : jsTruthy (env.authHeader.map bearerToken))
    (hbody : env.body = .failed msg) :
    ((postSignup cfg none provider).resp =
        .error 400 { message := "Invalid JSON in request body" } ∧
      (postSignup cfg none provider).providerCalled = false) ∧
    ((postSignupWithProfile cfg none originHeader nextUrlOrigin provider).resp =
        .error 400 { message := "Invalid JSON in request body" } ∧
      (postSignupWithProfile cfg none originHeader nextUrlOrigin
        provider).providerCalled = false) ∧
    ((postCreateProfile env).resp =
        .error 500 { message := "Internal server error", details := some msg } ∧
      (postCreateProfile env).getUserCalled = false ∧
      (postCreateProfile env).insertCalled = false) := by
  refine ⟨⟨rfl, rfl⟩, ⟨rfl, rfl⟩, ?_⟩
  simp [postCreateProfile, hbody, htok]

/-- Witness for the amended C8 at concrete unparseable-body requests. -/
theorem c8_invalid_body_amended_witness :
    ((postSignup cfgOk none providerUnused).resp =
        .error 400 { message := "Invalid JSON in request body" } ∧
      (postSignup cfgOk none providerUnused).providerCalled = false) ∧
    ((postSignupWithProfile cfgOk none none "https://app.example.com"
        providerUnused).resp =
        .error 400 { message := "Invalid JSON in request body" } ∧
      (postSignupWithProfile cfgOk none none "https://app.example.com"
        providerUnused).providerCalled = false) ∧
    ((postCreateProfile cpEnvBadBody).resp =
        .error 500 { message := "Internal server error", details := some "Unexpected token < in JSON at position 0" } ∧
      (postCreateProfile cpEnvBadBody).getUserCalled = false ∧
      (postCreateProfile cpEnvBadBody).insertCalled = false) :=
  c8_invalid_body_amended cfgOk providerUnused none "https://app.example.com"
    cpEnvBadBody "Unexpected token < in JSON at position 0" (by decide) rfl

end AthletyQ
